import Mathlib

/-!
Shallow embedding of the scan engine in src/scanner.rs (feroxbuster).

The file embeds: URL expansion (create_urls), the directory classifier
(response_is_directory), depth-bounded recursion (reached_max_depth,
try_recursion), wildcard and size filtering inside the worker
(make_requests), the recursion dispatcher (spawn_recursion_handler), the
two report sinks (spawn_terminal_reporter, spawn_file_reporter), and the
coordinator shutdown order of scan_url as an event trace.

External collaborators that are part of this repository but not under src
(the utils module: format_url, get_current_depth, get_url_path_length) and
the url crate resolution (Url::join) are modelled from the specification;
each such definition carries a doc comment saying so.  HTTP requests,
channel sends and file writes are modelled by explicit oracles and result
lists.  Rust usize arithmetic is modelled as Nat with an explicit wrap at
2 ^ 64 where the source subtracts.
-/


/-- The usize modulus, 2 ^ 64, written as a literal so that omega can use it. -/
def usizeSize : Nat := 18446744073709551616

/-- Wrapping usize subtraction, the semantics of `a - b` on usize in a release
build; both operands of the source subtractions are usize values, hence below
`usizeSize`. -/
def usizeSub (a b : Nat) : Nat := (a + (usizeSize - b % usizeSize)) % usizeSize

/-- Characters of a list up to (excluding) the first occurrence of `c`. -/
def takeUntilChar (c : Char) : List Char → List Char
  | [] => []
  | x :: xs => if x == c then [] else x :: takeUntilChar c xs

/-- Split a character list on a separator character; mirrors splitting a
string on a character (adjacent separators give empty segments). -/
def splitOnChar (c : Char) : List Char → List (List Char)
  | [] => [[]]
  | x :: xs =>
    if x == c then [] :: splitOnChar c xs
    else
      match splitOnChar c xs with
      | [] => [[x]]
      | y :: ys => (x :: y) :: ys

/-- Whether a string ends with the given character (Rust str::ends_with on a
char pattern). -/
def strEndsWith (s : String) (c : Char) : Bool :=
  match s.data.getLast? with
  | some x => x == c
  | none => false

/-- Modelled from the spec: the path component of a URL string, used by the
utils module (not under src).  The characters after the scheme://host prefix
and before any query component; the root path is "/". -/
def url_path_chars (url : String) : List Char :=
  match splitOnChar '/' (takeUntilChar '?' url.data) with
  | _scheme :: _empty :: _host :: rest => '/' :: List.intercalate ['/'] rest
  | _ => []

/-- Modelled from the spec: the path component of a URL string, as a string. -/
def url_path (url : String) : String := String.mk (url_path_chars url)

/-- Modelled from the spec: `get_current_depth(url)` from the utils module
(not under src) counts path segments of the URL.  The root URL itself has
depth 1 (the spec anchors the root scan at base_depth 1 for
"http://localhost"), and each non-empty path segment adds one. -/
def get_current_depth (url : String) : Nat :=
  match splitOnChar '/' (takeUntilChar '?' url.data) with
  | _scheme :: _empty :: _host :: rest =>
      1 + (rest.filter (fun seg => !seg.isEmpty)).length
  | _ => 1

/-- Modelled from the spec: `get_url_path_length(url)` from the utils module
(not under src) counts characters of the URL path but excludes a trailing
slash if present (so "/a/" has length 2, matching "/a"). -/
def get_url_path_length (url : String) : Nat :=
  let p := url_path_chars url
  match p.getLast? with
  | some c => if c == '/' then p.length - 1 else p.length
  | none => 0

/-- A header value as seen by the worker; `to_str` is none when the raw bytes
are not visible ASCII (HeaderValue::to_str() returning Err). -/
structure HeaderValue where
  to_str : Option String
  deriving DecidableEq

/-- The slice of an HTTP response that src/scanner.rs reads: the status code,
the final URL string (post-redirect), the content length, and the Location
header. -/
structure Response where
  status : Nat
  url : String
  content_length : Option Nat
  location : Option HeaderValue
  deriving DecidableEq

/-- heuristics::WildcardFilter: a static wildcard size and a dynamic wildcard
offset; both zero means no filter. -/
structure WildcardFilter where
  size : Nat
  dynamic : Nat
  deriving DecidableEq

/-- The fields of the global CONFIGURATION that src/scanner.rs reads, passed
explicitly instead of through a global. -/
structure Configuration where
  statuscodes : List Nat
  sizefilters : List Nat
  extensions : List String
  addslash : Bool
  queries : List (String × String)
  redirects : Bool
  norecursion : Bool
  depth : Nat
  threads : Nat
  output : String
  quiet : Bool
  dontfilter : Bool
  deriving DecidableEq

/-- StatusCode::is_redirection(): 300 ≤ status ≤ 399. -/
def is_redirection (status : Nat) : Bool := 300 ≤ status && status ≤ 399

/-- StatusCode::is_success(): 200 ≤ status ≤ 299. -/
def is_success (status : Nat) : Bool := 200 ≤ status && status ≤ 299

/-- The query component appended by format_url when query pairs are
configured. -/
def query_string (queries : List (String × String)) : String :=
  match queries with
  | [] => ""
  | _ => "?" ++ String.intercalate "&" (queries.map (fun q => q.1 ++ "=" ++ q.2))

/-- Modelled from the spec: the URL string built by `format_url` from the
utils module (not under src): the concatenation of target, word, optional
trailing slash (if configured), the extension appended to the path before
any query, and the configured query pairs as the query component. -/
def build_url (target word : String) (addslash : Bool)
    (queries : List (String × String)) (ext : Option String) : String :=
  let w := if addslash && !strEndsWith word '/' then word ++ "/" else word
  let w := match ext with
    | some e => w ++ "." ++ e
    | none => w
  target ++ "/" ++ w ++ query_string queries

/-- Modelled from the spec: `format_url` from the utils module (not under
src).  A malformed concatenation is rejected (Url::parse failure).  The spec
laws `|expand(t, w, exts)| ∈ \x7b0, 1+|exts|\x7d` and "the list may be empty
if and only if every candidate failed to parse" entail that malformedness is
decided by the target and word, not by the appended extension; we therefore
model parse success with an oracle `valid` over the target and word. -/
def format_url (valid : String → String → Bool) (target word : String)
    (addslash : Bool) (queries : List (String × String))
    (ext : Option String) : Option String :=
  if valid target word then some (build_url target word addslash queries ext)
  else none

/-- create_urls (src/scanner.rs): push the extension-less URL if it parses,
then one URL per extension, in order, keeping only those that parse. -/
def create_urls (cfg : Configuration) (valid : String → String → Bool)
    (target_url word : String) (extensions : List String) : List String :=
  (format_url valid target_url word cfg.addslash cfg.queries none).toList ++
    extensions.filterMap
      (fun ext => format_url valid target_url word cfg.addslash cfg.queries (some ext))

/-- response_is_directory (src/scanner.rs).  For a 3xx response: look up the
Location header; if its value converts to a string and resolves (join)
against the response URL to an absolute URL equal to the response URL plus
"/", the response is a directory; any failure falls through to false.  For a
2xx response: true iff the response URL string ends with a slash.  Any other
status: false.  `join` models Url::join from the url crate (not under src). -/
def response_is_directory (join : String → String → Option String)
    (response : Response) : Bool :=
  if is_redirection response.status then
    match response.location with
    | some loc =>
      match loc.to_str with
      | some loc_str =>
        match join response.url loc_str with
        | some abs_url => decide (response.url ++ "/" = abs_url)
        | none => false
      | none => false
    | none => false
  else if is_success response.status then
    strEndsWith response.url '/'
  else
    false

/-- reached_max_depth (src/scanner.rs): depth 0 in the configuration means
recurse forever; otherwise compare `get_current_depth(url) - base_depth`
(usize subtraction) against the configured depth. -/
def reached_max_depth (cfg : Configuration) (url : String) (base_depth : Nat) : Bool :=
  if cfg.depth = 0 then false
  else
    let depth := get_current_depth url
    if cfg.depth ≤ usizeSub depth base_depth then true
    else false

/-- try_recursion (src/scanner.rs): when the depth cap is not reached and the
response is a directory, send the response URL string on the recursion
channel; the two arms gated on the follow-redirects flag are kept as in the
source.  The returned list holds the messages given to the channel. -/
def try_recursion (cfg : Configuration) (join : String → String → Option String)
    (response : Response) (base_depth : Nat) : List String :=
  if !reached_max_depth cfg response.url base_depth
      && response_is_directory join response then
    if cfg.redirects then
      [response.url]
    else
      let new_url := response.url
      [new_url]
  else
    []

/-- The recursion attempt as the specification collapses it (spec section 4.6
and the design note of section 9): one arm, independent of the
follow-redirects flag.  Written from the words of the spec, to be compared
with `try_recursion` as embedded from the source. -/
def try_recursion_spec (cfg : Configuration) (join : String → String → Option String)
    (response : Response) (base_depth : Nat) : List String :=
  if !reached_max_depth cfg response.url base_depth
      && response_is_directory join response then
    [response.url]
  else
    []

/-- What one worker produces: the URL strings sent on the recursion channel
and the responses sent on the report channel, in order. -/
structure WorkerOutput where
  dir_msgs : List String
  reports : List Response
  deriving DecidableEq

/-- Concatenation of two worker outputs, preserving order. -/
def mergeOutput (a b : WorkerOutput) : WorkerOutput :=
  ⟨a.dir_msgs ++ b.dir_msgs, a.reports ++ b.reports⟩

/-- The per-response body of the loop in make_requests (src/scanner.rs):
recursion is attempted first (gated on the norecursion flag and the
directory classifier); then the size-filter set, the static wildcard size
and the dynamic wildcard offset may each discard the response (continue);
anything that survives is sent on the report channel. -/
def process_response (cfg : Configuration) (join : String → String → Option String)
    (filter : WildcardFilter) (base_depth : Nat) (response : Response) : WorkerOutput :=
  let dirs :=
    if !cfg.norecursion && response_is_directory join response then
      try_recursion cfg join response base_depth
    else []
  let content_len := response.content_length.getD 0
  let reports :=
    if cfg.sizefilters.contains content_len then []
    else if 0 < filter.size && filter.size == content_len && !cfg.dontfilter then []
    else if 0 < filter.dynamic && !cfg.dontfilter
        && get_url_path_length response.url + filter.dynamic == content_len then []
    else [response]
  ⟨dirs, reports⟩

/-- One iteration of the URL loop in make_requests: issue the request through
the HTTP oracle (`none` models a request error, which is logged and
skipped). -/
def process_url (cfg : Configuration) (join : String → String → Option String)
    (http : String → Option Response) (filter : WildcardFilter)
    (base_depth : Nat) (url : String) : WorkerOutput :=
  match http url with
  | some response => process_response cfg join filter base_depth response
  | none => ⟨[], []⟩

/-- The URL loop of make_requests over a list of urls. -/
def worker_outputs (cfg : Configuration) (join : String → String → Option String)
    (http : String → Option Response) (filter : WildcardFilter)
    (base_depth : Nat) : List String → WorkerOutput
  | [] => ⟨[], []⟩
  | url :: rest =>
    mergeOutput (process_url cfg join http filter base_depth url)
      (worker_outputs cfg join http filter base_depth rest)

/-- make_requests (src/scanner.rs): expand the word through create_urls with
the configured extensions, then run the per-URL loop. -/
def make_requests (cfg : Configuration) (join : String → String → Option String)
    (http : String → Option Response) (valid : String → String → Bool)
    (target_url word : String) (base_depth : Nat) (filter : WildcardFilter) : WorkerOutput :=
  worker_outputs cfg join http filter base_depth
    (create_urls cfg valid target_url word cfg.extensions)

/-- A call to scan_url as spawned by the recursion handler. -/
structure ScanCall where
  target : String
  wordlist : List String
  base_depth : Nat
  deriving DecidableEq

/-- spawn_recursion_handler (src/scanner.rs): for every URL received on the
recursion channel, spawn scan_url on that URL with the shared wordlist and
the unchanged base_depth. -/
def spawn_recursion_handler (received : List String) (wordlist : List String)
    (base_depth : Nat) : List ScanCall :=
  received.map (fun url => ⟨url, wordlist, base_depth⟩)

/-- Decimal rendering of a status code or content length. -/
def natStr (n : Nat) : String := Nat.repr n

/-- Right-justification to width 10 with spaces, the Rust format spec
\x7b:>10\x7d. -/
def padLeft10 (s : String) : String :=
  if 10 ≤ s.length then s else String.mk (List.replicate (10 - s.length) ' ') ++ s

/-- The report line of the sinks: bare URL in quiet mode, otherwise
status, right-justified content length and URL; `statusStr` is the rendered
(possibly colorized) status. -/
def report_line (cfg : Configuration) (statusStr : String) (r : Response) : String :=
  if cfg.quiet then r.url
  else statusStr ++ " " ++ padLeft10 (natStr (r.content_length.getD 0)) ++ " " ++ r.url

/-- What the terminal sink did: the responses it printed and the printed
lines, in arrival order. -/
structure TerminalReporterResult where
  emitted : List Response
  lines : List String
  deriving DecidableEq

/-- spawn_terminal_reporter (src/scanner.rs): drain the report channel; print
a line for every response whose status is in the configured allow-set;
`colorize` models status_colorizer from the utils module. -/
def spawn_terminal_reporter (cfg : Configuration) (colorize : String → String) :
    List Response → TerminalReporterResult
  | [] => ⟨[], []⟩
  | r :: rest =>
    let res := spawn_terminal_reporter cfg colorize rest
    if cfg.statuscodes.contains r.status then
      ⟨r :: res.emitted, report_line cfg (colorize (natStr r.status)) r :: res.lines⟩
    else
      res

/-- What the file sink did: the responses it received from the channel, the
responses that passed the status check (a write was attempted), and the
lines whose write call succeeded. -/
structure FileReporterResult where
  consumed : List Response
  reported : List Response
  written : List String
  deriving DecidableEq

/-- The receive loop of spawn_file_reporter (src/scanner.rs), entered only
after a successful open.  `write_ok i` models the result of the write call
for the i-th received response; a failed write is logged and the loop
continues.  The flush after each message is logged on failure and the loop
continues; `flush_ok` has no further observable effect in this model. -/
def file_reporter_loop (cfg : Configuration) (write_ok flush_ok : Nat → Bool) :
    Nat → List Response → FileReporterResult
  | _, [] => ⟨[], [], []⟩
  | i, r :: rest =>
    let res := file_reporter_loop cfg write_ok flush_ok (i + 1) rest
    if cfg.statuscodes.contains r.status then
      let line := report_line cfg (natStr r.status) r ++ "\n"
      if write_ok i then
        ⟨r :: res.consumed, r :: res.reported, line :: res.written⟩
      else
        ⟨r :: res.consumed, r :: res.reported, res.written⟩
    else
      ⟨r :: res.consumed, res.reported, res.written⟩

/-- spawn_file_reporter (src/scanner.rs): open the output path in
create-or-append mode; on success run the receive loop; on an open error log
and return at once (the receiver is dropped without consuming anything). -/
def spawn_file_reporter (cfg : Configuration) (open_ok : Bool)
    (write_ok flush_ok : Nat → Bool) (msgs : List Response) : FileReporterResult :=
  if open_ok then file_reporter_loop cfg write_ok flush_ok 0 msgs
  else ⟨[], [], []⟩

/-- The coordinator actions of scan_url (src/scanner.rs) that matter for
shutdown, in program order. -/
inductive CoordEvent where
  | spawnReporter : CoordEvent
  | spawnRecurser : CoordEvent
  | calibrateFilter : CoordEvent
  | awaitProducers : CoordEvent
  | finishProgressBar : CoordEvent
  | dropDirTx : CoordEvent
  | awaitRecurser : CoordEvent
  | dropRptTx : CoordEvent
  | awaitReporter : CoordEvent
  deriving DecidableEq

/-- The body of scan_url (src/scanner.rs) as the ordered sequence of its
coordinator actions: spawn the report sink, spawn the recursion handler,
calibrate the wildcard filter, await all producer workers, finish the
progress bar, drop the recursion sender, await the recursion handler and
join all child scans, drop the report sender, await the report sink. -/
def scan_url_events : List CoordEvent :=
  [.spawnReporter, .spawnRecurser, .calibrateFilter, .awaitProducers,
   .finishProgressBar, .dropDirTx, .awaitRecurser, .dropRptTx, .awaitReporter]

/-- Position of a coordinator action in the scan_url body. -/
def eventIdx (e : CoordEvent) : Nat :=
  scan_url_events.findIdx (fun x => decide (x = e))

/-- The root-scan check of scan_url (src/scanner.rs line 433):
`get_current_depth(target_url) - base_depth == 0` with usize subtraction,
deciding whether this call joins the global progress bar. -/
def scan_url_root_check (target_url : String) (base_depth : Nat) : Bool :=
  usizeSub (get_current_depth target_url) base_depth == 0

def c1cfg : Configuration := ⟨[200], [], [], false, [], false, false, 0, 1, "", false, false⟩

def c1resp : Response := ⟨200, "http://h/w/", some 5, none⟩

def c1http : String → Option Response :=
  fun u => if u = "http://h/w" then some c1resp else none

def c2cfg : Configuration := ⟨[200], [], [], false, [], false, false, 2, 1, "", false, false⟩

def c2resp : Response := ⟨200, "http://h/w/", some 5, none⟩

def c2http : String → Option Response :=
  fun u => if u = "http://h/w" then some c2resp else none

def c2cfg0 : Configuration := ⟨[200], [], [], false, [], false, false, 0, 1, "", false, false⟩

def c3cfg : Configuration := ⟨[200], [], [], false, [], false, false, 2, 1, "", false, false⟩

def c3resp : Response := ⟨200, "http://h/a/b/", some 1, none⟩

def c3resp2 : Response := ⟨200, "http://h/a/", some 1, none⟩

def c4resp : Response := ⟨200, "http://h/a/?x=1", none, none⟩

def c4loc : HeaderValue := ⟨some "http://h/foo/"⟩

def c4r301 : Response := ⟨301, "http://h/foo", none, some c4loc⟩

def c4join : String → String → Option String := fun _ l => some l

def c4r200 : Response := ⟨200, "http://h/bar/", some 1, none⟩

def c4r404 : Response := ⟨404, "http://h/baz", none, none⟩

def c9cfg : Configuration := ⟨[200], [], [], false, [], true, false, 0, 1, "", false, false⟩

def c9resp : Response := ⟨200, "http://h/d/", some 3, none⟩

def c10cfg : Configuration := ⟨[200], [], [], false, [], false, false, 1, 1, "", false, false⟩

def c5cfg : Configuration := ⟨[200], [], [], false, [], false, false, 0, 1, "", false, false⟩

def c5r200 : Response := ⟨200, "http://h/ok", some 2, none⟩

def c5r404 : Response := ⟨404, "http://h/no", some 2, none⟩

def c6cfg : Configuration := ⟨[200], [], ["js"], false, [], false, false, 0, 1, "", false, false⟩

def c8cfg : Configuration := ⟨[200], [], [], false, [], false, false, 0, 1, "", false, false⟩

def c8resp : Response := ⟨200, "http://h/x", some 1, none⟩

theorem try_recursion_eq (cfg : Configuration) (join : String → String → Option String)
    (response : Response) (base_depth : Nat) :
    try_recursion cfg join response base_depth =
      if !reached_max_depth cfg response.url base_depth
          && response_is_directory join response then [response.url] else [] := by
  unfold try_recursion
  split
  · cases cfg.redirects <;> simp
  · rfl

theorem process_response_dir_msgs (cfg : Configuration)
    (join : String → String → Option String) (filter : WildcardFilter)
    (base_depth : Nat) (response : Response) :
    (process_response cfg join filter base_depth response).dir_msgs =
      if !cfg.norecursion && response_is_directory join response then
        try_recursion cfg join response base_depth
      else [] := by
  rfl

theorem mem_worker_outputs_dir (cfg : Configuration)
    (join : String → String → Option String) (http : String → Option Response)
    (filter : WildcardFilter) (base_depth : Nat) (urls : List String) (msg : String) :
    msg ∈ (worker_outputs cfg join http filter base_depth urls).dir_msgs ↔
      ∃ url, url ∈ urls ∧
        msg ∈ (process_url cfg join http filter base_depth url).dir_msgs := by
  induction urls with
  | nil => simp [worker_outputs]
  | cons u rest ih =>
    simp only [worker_outputs, mergeOutput, List.mem_append, ih, List.mem_cons]
    constructor
    · rintro (h | ⟨url, hu, hm⟩)
      · exact ⟨u, Or.inl rfl, h⟩
      · exact ⟨url, Or.inr hu, hm⟩
    · rintro ⟨url, (rfl | hu), hm⟩
      · exact Or.inl hm
      · exact Or.inr ⟨url, hu, hm⟩

theorem try_recursion_congr (cfgA cfgB : Configuration)
    (join : String → String → Option String) (r : Response) (base_depth : Nat)
    (hd : cfgA.depth = cfgB.depth) (hr : cfgA.redirects = cfgB.redirects) :
    try_recursion cfgA join r base_depth = try_recursion cfgB join r base_depth := by
  unfold try_recursion reached_max_depth
  simp only [hd, hr]

theorem process_url_dir_msgs_congr (cfgA cfgB : Configuration)
    (join : String → String → Option String) (http : String → Option Response)
    (filterA filterB : WildcardFilter) (base_depth : Nat)
    (hn : cfgA.norecursion = cfgB.norecursion) (hd : cfgA.depth = cfgB.depth)
    (hr : cfgA.redirects = cfgB.redirects) (url : String) :
    (process_url cfgA join http filterA base_depth url).dir_msgs =
      (process_url cfgB join http filterB base_depth url).dir_msgs := by
  unfold process_url
  cases http url with
  | none => rfl
  | some r =>
    simp only [process_response_dir_msgs, hn,
      try_recursion_congr cfgA cfgB join r base_depth hd hr]

theorem worker_outputs_dir_msgs_congr (cfgA cfgB : Configuration)
    (join : String → String → Option String) (http : String → Option Response)
    (filterA filterB : WildcardFilter) (base_depth : Nat)
    (hn : cfgA.norecursion = cfgB.norecursion) (hd : cfgA.depth = cfgB.depth)
    (hr : cfgA.redirects = cfgB.redirects) (urls : List String) :
    (worker_outputs cfgA join http filterA base_depth urls).dir_msgs =
      (worker_outputs cfgB join http filterB base_depth urls).dir_msgs := by
  induction urls with
  | nil => rfl
  | cons u rest ih =>
    simp only [worker_outputs, mergeOutput, ih,
      process_url_dir_msgs_congr cfgA cfgB join http filterA filterB base_depth hn hd hr u]

/-- C1: in make_requests the recursion decision is made before filtering:
the messages sent on the recursion channel do not depend on the size-filter
set, the wildcard filter or the dontfilter flag, and whenever recursion is
enabled, a requested URL yields a response classified as a directory and the
depth bound allows it, the response URL is sent on the recursion channel,
with no assumption on whether the filters later discard the response. -/
theorem recursion_decision_before_filtering
    (cfg : Configuration) (join : String → String → Option String)
    (http : String → Option Response) (valid : String → String → Bool)
    (target_url word : String) (base_depth : Nat)
    (filter filter2 : WildcardFilter) (sf sf2 : List Nat) (df df2 : Bool)
    (url : String) (response : Response) :
    ((make_requests {cfg with sizefilters := sf, dontfilter := df} join http valid
        target_url word base_depth filter).dir_msgs
      = (make_requests {cfg with sizefilters := sf2, dontfilter := df2} join http valid
        target_url word base_depth filter2).dir_msgs)
  ∧ (cfg.norecursion = false →
     url ∈ create_urls cfg valid target_url word cfg.extensions →
     http url = some response →
     response_is_directory join response = true →
     reached_max_depth cfg response.url base_depth = false →
     response.url ∈ (make_requests cfg join http valid target_url word
        base_depth filter).dir_msgs) := by
  constructor
  · unfold make_requests
    have hl : create_urls {cfg with sizefilters := sf, dontfilter := df} valid target_url word
        ({cfg with sizefilters := sf, dontfilter := df} : Configuration).extensions
      = create_urls {cfg with sizefilters := sf2, dontfilter := df2} valid target_url word
        ({cfg with sizefilters := sf2, dontfilter := df2} : Configuration).extensions := rfl
    rw [hl]
    exact worker_outputs_dir_msgs_congr {cfg with sizefilters := sf, dontfilter := df}
      {cfg with sizefilters := sf2, dontfilter := df2} join http filter filter2 base_depth
      rfl rfl rfl _
  · intro hnr hurl hhttp hdir hreach
    unfold make_requests
    rw [mem_worker_outputs_dir]
    refine ⟨url, hurl, ?_⟩
    unfold process_url
    rw [hhttp, process_response_dir_msgs, if_pos (by simp [hnr, hdir]),
      try_recursion_eq, if_pos (by simp [hreach, hdir])]
    exact List.mem_singleton.mpr rfl

theorem recursion_decision_before_filtering_witness :
    c1cfg.norecursion = false
  ∧ "http://h/w" ∈ create_urls c1cfg (fun _ _ => true) "http://h" "w" c1cfg.extensions
  ∧ c1http "http://h/w" = some c1resp
  ∧ response_is_directory (fun _ _ => none) c1resp = true
  ∧ reached_max_depth c1cfg c1resp.url 1 = false
  ∧ c1resp.url ∈ (make_requests c1cfg (fun _ _ => none) c1http (fun _ _ => true)
      "http://h" "w" 1 ⟨0, 0⟩).dir_msgs :=
  ⟨by decide, by decide, by decide, by decide, by decide,
    (recursion_decision_before_filtering c1cfg (fun _ _ => none) c1http (fun _ _ => true)
      "http://h" "w" 1 ⟨0, 0⟩ ⟨0, 0⟩ [] [] false false "http://h/w" c1resp).2
      (by decide) (by decide) (by decide) (by decide) (by decide)⟩

/-- C2: with configured depth d > 0, no URL whose depth exceeds
base_depth + d - 1 is ever sent on the recursion channel by a worker; the
recursion handler passes base_depth unchanged to every spawned child scan;
and with configured depth 0 no depth bound applies. -/
theorem recursion_channel_depth_bound
    (cfg : Configuration) (join : String → String → Option String)
    (http : String → Option Response) (valid : String → String → Bool)
    (target_url word : String) (base_depth : Nat) (filter : WildcardFilter) :
    (0 < cfg.depth →
      ∀ msg, msg ∈ (make_requests cfg join http valid target_url word
          base_depth filter).dir_msgs →
        get_current_depth msg < usizeSize → base_depth < usizeSize →
        get_current_depth msg ≤ base_depth + cfg.depth - 1)
  ∧ (∀ (received wordlist : List String) (call : ScanCall),
      call ∈ spawn_recursion_handler received wordlist base_depth →
      call.base_depth = base_depth)
  ∧ (cfg.depth = 0 → ∀ url, reached_max_depth cfg url base_depth = false) := by
  refine ⟨?_, ?_, ?_⟩
  · intro hpos msg hmem hmsg hbase
    unfold make_requests at hmem
    rw [mem_worker_outputs_dir] at hmem
    obtain ⟨url, -, hm⟩ := hmem
    unfold process_url at hm
    cases hh : http url with
    | none => rw [hh] at hm; simp at hm
    | some r =>
      rw [hh, process_response_dir_msgs] at hm
      split at hm
      case isFalse => simp at hm
      case isTrue hcond =>
        rw [try_recursion_eq] at hm
        split at hm
        case isFalse => simp at hm
        case isTrue hcond2 =>
          rw [List.mem_singleton] at hm
          subst hm
          simp only [Bool.and_eq_true, Bool.not_eq_true'] at hcond2
          have hreach : reached_max_depth cfg r.url base_depth = false := hcond2.1
          unfold reached_max_depth at hreach
          rw [if_neg (by omega)] at hreach
          have hlt : usizeSub (get_current_depth r.url) base_depth < cfg.depth := by
            by_contra hc
            rw [if_pos (by omega)] at hreach
            exact absurd hreach (by simp)
          unfold usizeSub at hlt
          unfold usizeSize at hlt hmsg hbase
          omega
  · intro received wordlist call hc
    unfold spawn_recursion_handler at hc
    obtain ⟨url, -, rfl⟩ := List.mem_map.mp hc
    rfl
  · intro h0 url
    unfold reached_max_depth
    rw [if_pos h0]

theorem recursion_channel_depth_bound_witness :
    (0 < c2cfg.depth
      ∧ "http://h/w/" ∈ (make_requests c2cfg (fun _ _ => none) c2http (fun _ _ => true)
          "http://h" "w" 1 ⟨0, 0⟩).dir_msgs
      ∧ get_current_depth "http://h/w/" < usizeSize ∧ 1 < usizeSize
      ∧ get_current_depth "http://h/w/" ≤ 1 + c2cfg.depth - 1)
  ∧ ((⟨"http://h/w/", ["w"], 1⟩ : ScanCall) ∈ spawn_recursion_handler ["http://h/w/"] ["w"] 1
      ∧ (⟨"http://h/w/", ["w"], 1⟩ : ScanCall).base_depth = 1)
  ∧ (c2cfg0.depth = 0 ∧ reached_max_depth c2cfg0 "http://h/a/" 1 = false) :=
  ⟨⟨by decide, by decide, by decide, by decide,
    (recursion_channel_depth_bound c2cfg (fun _ _ => none) c2http (fun _ _ => true)
      "http://h" "w" 1 ⟨0, 0⟩).1 (by decide) "http://h/w/" (by decide) (by decide) (by decide)⟩,
   ⟨by decide,
    (recursion_channel_depth_bound c2cfg (fun _ _ => none) c2http (fun _ _ => true)
      "http://h" "w" 1 ⟨0, 0⟩).2.1 ["http://h/w/"] ["w"] _ (by decide)⟩,
   ⟨by decide,
    (recursion_channel_depth_bound c2cfg0 (fun _ _ => none) c2http (fun _ _ => true)
      "http://h" "w" 1 ⟨0, 0⟩).2.2 (by decide) "http://h/a/"⟩⟩

/-- C3 counterexample: with configured depth 2 and base_depth 1, a directory
response at depth 3 has reached the maximum depth (3 - 1 >= 2) and nothing is
sent on the recursion channel, refuting the claim that depth 3 is allowed. -/
theorem depth_scenario_counterexample :
    c3cfg.depth = 2
  ∧ get_current_depth c3resp.url = 3
  ∧ response_is_directory (fun _ _ => none) c3resp = true
  ∧ reached_max_depth c3cfg c3resp.url 1 = true
  ∧ try_recursion c3cfg (fun _ _ => none) c3resp 1 = [] := by decide

/-- C3 (amended): with max_depth 2 and base_depth 1, a discovered directory
URL at depth 2 is allowed (passes the depth check and is sent on the
recursion channel), while a discovered directory URL at depth 3 is not. -/
theorem depth_scenario_amended
    (cfg : Configuration) (join : String → String → Option String) (r2 r3 : Response) :
    cfg.depth = 2 →
    response_is_directory join r2 = true → get_current_depth r2.url = 2 →
    response_is_directory join r3 = true → get_current_depth r3.url = 3 →
      reached_max_depth cfg r2.url 1 = false
    ∧ try_recursion cfg join r2 1 = [r2.url]
    ∧ reached_max_depth cfg r3.url 1 = true
    ∧ try_recursion cfg join r3 1 = [] := by
  intro hd h2 hd2 h3 hd3
  have hr2 : reached_max_depth cfg r2.url 1 = false := by
    unfold reached_max_depth
    rw [hd, hd2]
    decide
  have hr3 : reached_max_depth cfg r3.url 1 = true := by
    unfold reached_max_depth
    rw [hd, hd3]
    decide
  refine ⟨hr2, ?_, hr3, ?_⟩
  · rw [try_recursion_eq]
    simp [hr2, h2]
  · rw [try_recursion_eq]
    simp [hr3]

theorem depth_scenario_amended_witness :
    c3cfg.depth = 2
  ∧ response_is_directory (fun _ _ => none) c3resp2 = true
  ∧ get_current_depth c3resp2.url = 2
  ∧ response_is_directory (fun _ _ => none) c3resp = true
  ∧ get_current_depth c3resp.url = 3
  ∧ (reached_max_depth c3cfg c3resp2.url 1 = false
     ∧ try_recursion c3cfg (fun _ _ => none) c3resp2 1 = [c3resp2.url]
     ∧ reached_max_depth c3cfg c3resp.url 1 = true
     ∧ try_recursion c3cfg (fun _ _ => none) c3resp 1 = []) :=
  ⟨by decide, by decide, by decide, by decide, by decide,
    depth_scenario_amended c3cfg (fun _ _ => none) c3resp2 c3resp
      (by decide) (by decide) (by decide) (by decide) (by decide)⟩

/-- C4 counterexample: a 2xx response whose URL path ends with a slash but
whose full URL string does not (a query component follows the path); the
claim predicts true, response_is_directory returns false. -/
theorem directory_classifier_counterexample :
    is_success c4resp.status = true
  ∧ strEndsWith (url_path c4resp.url) '/' = true
  ∧ response_is_directory (fun _ _ => none) c4resp = false := by decide

/-- C4 (amended): response_is_directory returns, for a 3xx response, true iff
the Location header is present, converts to a string, resolves against the
response URL, and the resolved absolute URL equals the response URL plus "/"
byte for byte; for a 2xx response, true iff the full URL string (not the URL
path) ends with a slash; for every other status, false. -/
theorem directory_classifier_characterization
    (join : String → String → Option String) (r : Response) :
    (is_redirection r.status = true →
      (response_is_directory join r = true ↔
        ∃ loc loc_str abs_url, r.location = some loc ∧ loc.to_str = some loc_str
          ∧ join r.url loc_str = some abs_url ∧ abs_url = r.url ++ "/"))
  ∧ (is_success r.status = true →
      response_is_directory join r = strEndsWith r.url '/')
  ∧ (is_redirection r.status = false → is_success r.status = false →
      response_is_directory join r = false) := by
  obtain ⟨st, u, cl, lo⟩ := r
  refine ⟨?_, ?_, ?_⟩
  · intro hred
    unfold response_is_directory
    simp only
    rw [if_pos hred]
    cases lo with
    | none => simp
    | some loc =>
      obtain ⟨ts⟩ := loc
      cases ts with
      | none => simp
      | some ls =>
        cases hj : join u ls with
        | none => simp [hj]
        | some abs_url =>
          simp [hj, eq_comm]
  · intro hsucc
    have hred : is_redirection st = false := by
      unfold is_success at hsucc
      unfold is_redirection
      simp only [Bool.and_eq_true, decide_eq_true_eq] at hsucc
      simp only [Bool.and_eq_false_iff, decide_eq_false_iff_not]
      omega
    unfold response_is_directory
    simp only
    rw [if_neg (by simp [hred]), if_pos hsucc]
  · intro hred hsucc
    unfold response_is_directory
    simp only
    rw [if_neg (by simp [hred]), if_neg (by simp [hsucc])]

theorem directory_classifier_characterization_witness :
    (is_redirection c4r301.status = true
      ∧ (response_is_directory c4join c4r301 = true ↔ ∃ loc loc_str abs_url,
          c4r301.location = some loc ∧ loc.to_str = some loc_str
          ∧ c4join c4r301.url loc_str = some abs_url ∧ abs_url = c4r301.url ++ "/"))
  ∧ (is_success c4r200.status = true
      ∧ response_is_directory c4join c4r200 = strEndsWith c4r200.url '/')
  ∧ (is_redirection c4r404.status = false ∧ is_success c4r404.status = false
      ∧ response_is_directory c4join c4r404 = false) :=
  ⟨⟨by decide, (directory_classifier_characterization c4join c4r301).1 (by decide)⟩,
   ⟨by decide, (directory_classifier_characterization c4join c4r200).2.1 (by decide)⟩,
   ⟨by decide, by decide,
    (directory_classifier_characterization c4join c4r404).2.2 (by decide) (by decide)⟩⟩

/-- C9: the two arms of the recursion send gated on the follow-redirects flag
are observably equivalent; try_recursion refines the single-arm version of
the specification, and under the recursion precondition the message sent is
exactly the response URL string, independent of the flag. -/
theorem try_recursion_arms_equivalent
    (cfg : Configuration) (join : String → String → Option String)
    (response : Response) (base_depth : Nat) :
    try_recursion {cfg with redirects := true} join response base_depth
      = try_recursion {cfg with redirects := false} join response base_depth
  ∧ try_recursion cfg join response base_depth
      = try_recursion_spec cfg join response base_depth
  ∧ (reached_max_depth cfg response.url base_depth = false →
     response_is_directory join response = true →
     try_recursion cfg join response base_depth = [response.url]) := by
  refine ⟨?_, ?_, ?_⟩
  · rw [try_recursion_eq, try_recursion_eq]
    rfl
  · rw [try_recursion_eq]
    rfl
  · intro h1 h2
    rw [try_recursion_eq]
    simp [h1, h2]

theorem try_recursion_arms_equivalent_witness :
    reached_max_depth c9cfg c9resp.url 2 = false
  ∧ response_is_directory (fun _ _ => none) c9resp = true
  ∧ try_recursion c9cfg (fun _ _ => none) c9resp 2 = [c9resp.url] :=
  ⟨by decide, by decide,
    (try_recursion_arms_equivalent c9cfg (fun _ _ => none) c9resp 2).2.2
      (by decide) (by decide)⟩

/-- C10: reached_max_depth and the root-scan check of scan_url subtract
base_depth from the URL depth with usize arithmetic: when the depth is
smaller than base_depth the subtraction underflows (the wrapped value is the
modulus minus the true difference, and the mathematical difference is
negative); under the precondition depth >= base_depth no underflow happens
and both checks compute the intended comparisons. -/
theorem depth_subtraction_underflow
    (cfg : Configuration) (url : String) (base_depth : Nat) :
    get_current_depth url < usizeSize → base_depth < usizeSize →
    ((get_current_depth url < base_depth →
        usizeSub (get_current_depth url) base_depth
            = usizeSize - (base_depth - get_current_depth url)
      ∧ (get_current_depth url : Int) - (base_depth : Int) < 0)
    ∧ (base_depth ≤ get_current_depth url →
        usizeSub (get_current_depth url) base_depth
            = get_current_depth url - base_depth
      ∧ (cfg.depth ≠ 0 →
          reached_max_depth cfg url base_depth
            = decide (cfg.depth ≤ get_current_depth url - base_depth))
      ∧ scan_url_root_check url base_depth
          = decide (get_current_depth url = base_depth))) := by
  intro hu hb
  constructor
  · intro hlt
    constructor
    · unfold usizeSub usizeSize at *
      omega
    · omega
  · intro hle
    have hs : usizeSub (get_current_depth url) base_depth
        = get_current_depth url - base_depth := by
      unfold usizeSub usizeSize at *
      omega
    refine ⟨hs, ?_, ?_⟩
    · intro hd0
      unfold reached_max_depth
      rw [if_neg hd0]
      simp only [hs]
      by_cases h : cfg.depth ≤ get_current_depth url - base_depth
      · simp [h]
      · simp [h]
    · unfold scan_url_root_check
      rw [hs]
      by_cases h : get_current_depth url = base_depth
      · simp [h]
      · have : get_current_depth url - base_depth ≠ 0 := by omega
        simp [h, this]

theorem depth_subtraction_underflow_witness :
    (get_current_depth "http://h/a/" < usizeSize ∧ (5 : Nat) < usizeSize
      ∧ get_current_depth "http://h/a/" < 5
      ∧ usizeSub (get_current_depth "http://h/a/") 5
          = usizeSize - (5 - get_current_depth "http://h/a/")
      ∧ (get_current_depth "http://h/a/" : Int) - ((5 : Nat) : Int) < 0)
  ∧ ((1 : Nat) < usizeSize ∧ 1 ≤ get_current_depth "http://h/a/"
      ∧ c10cfg.depth ≠ 0
      ∧ usizeSub (get_current_depth "http://h/a/") 1
          = get_current_depth "http://h/a/" - 1
      ∧ reached_max_depth c10cfg "http://h/a/" 1
          = decide (c10cfg.depth ≤ get_current_depth "http://h/a/" - 1)
      ∧ scan_url_root_check "http://h/a/" 1
          = decide (get_current_depth "http://h/a/" = 1)) :=
  ⟨⟨by decide, by decide, by decide,
    ((depth_subtraction_underflow c10cfg "http://h/a/" 5 (by decide) (by decide)).1
      (by decide)).1,
    ((depth_subtraction_underflow c10cfg "http://h/a/" 5 (by decide) (by decide)).1
      (by decide)).2⟩,
   ⟨by decide, by decide, by decide,
    ((depth_subtraction_underflow c10cfg "http://h/a/" 1 (by decide) (by decide)).2
      (by decide)).1,
    ((depth_subtraction_underflow c10cfg "http://h/a/" 1 (by decide) (by decide)).2
      (by decide)).2.1 (by decide),
    ((depth_subtraction_underflow c10cfg "http://h/a/" 1 (by decide) (by decide)).2
      (by decide)).2.2⟩⟩

theorem file_reporter_loop_reported_status (cfg : Configuration)
    (write_ok flush_ok : Nat → Bool) :
    ∀ (msgs : List Response) (i : Nat) (r : Response),
      r ∈ (file_reporter_loop cfg write_ok flush_ok i msgs).reported →
      cfg.statuscodes.contains r.status = true := by
  intro msgs
  induction msgs with
  | nil =>
    intro i r hr
    simp [file_reporter_loop] at hr
  | cons m rest ih =>
    intro i r hr
    simp only [file_reporter_loop] at hr
    split at hr
    case isTrue h =>
      split at hr
      case isTrue hw =>
        rcases List.mem_cons.mp hr with rfl | hr'
        · exact h
        · exact ih (i + 1) r hr'
      case isFalse hw =>
        rcases List.mem_cons.mp hr with rfl | hr'
        · exact h
        · exact ih (i + 1) r hr'
    case isFalse h => exact ih (i + 1) r hr

/-- C5: every response a sink reports has its status code in the configured
allow-set; a response whose status is not in the allow-set is never reported
by the terminal sink nor written by the file sink. -/
theorem reported_status_in_allow_set
    (cfg : Configuration) (colorize : String → String) (open_ok : Bool)
    (write_ok flush_ok : Nat → Bool) (msgs : List Response) :
    (∀ r, r ∈ (spawn_terminal_reporter cfg colorize msgs).emitted →
      cfg.statuscodes.contains r.status = true)
  ∧ (∀ r, r ∈ (spawn_file_reporter cfg open_ok write_ok flush_ok msgs).reported →
      cfg.statuscodes.contains r.status = true) := by
  constructor
  · induction msgs with
    | nil =>
      intro r hr
      simp [spawn_terminal_reporter] at hr
    | cons m rest ih =>
      intro r hr
      simp only [spawn_terminal_reporter] at hr
      split at hr
      case isTrue h =>
        rcases List.mem_cons.mp hr with rfl | hr'
        · exact h
        · exact ih r hr'
      case isFalse h => exact ih r hr
  · intro r hr
    unfold spawn_file_reporter at hr
    split at hr
    case isTrue => exact file_reporter_loop_reported_status cfg write_ok flush_ok msgs 0 r hr
    case isFalse => simp at hr

theorem reported_status_in_allow_set_witness :
    (c5r200 ∈ (spawn_terminal_reporter c5cfg id [c5r200, c5r404]).emitted
      ∧ c5cfg.statuscodes.contains c5r200.status = true)
  ∧ (c5r200 ∈ (spawn_file_reporter c5cfg true (fun _ => true) (fun _ => true)
        [c5r200, c5r404]).reported
      ∧ c5cfg.statuscodes.contains c5r200.status = true) :=
  ⟨⟨by decide,
    (reported_status_in_allow_set c5cfg id true (fun _ => true) (fun _ => true)
      [c5r200, c5r404]).1 c5r200 (by decide)⟩,
   ⟨by decide,
    (reported_status_in_allow_set c5cfg id true (fun _ => true) (fun _ => true)
      [c5r200, c5r404]).2 c5r200 (by decide)⟩⟩

/-- C6: create_urls returns either the empty list or the extension-less URL
followed by one URL per extension in the order provided; whenever the
candidates parse the length is exactly one more than the number of
extensions, and any first element is the extension-less URL. -/
theorem create_urls_shape
    (cfg : Configuration) (valid : String → String → Bool)
    (target_url word : String) (exts : List String) :
    ((create_urls cfg valid target_url word exts).length = 0
      ∨ (create_urls cfg valid target_url word exts).length = 1 + exts.length)
  ∧ (valid target_url word = true →
      create_urls cfg valid target_url word exts
        = build_url target_url word cfg.addslash cfg.queries none
            :: exts.map (fun e => build_url target_url word cfg.addslash cfg.queries (some e)))
  ∧ ((create_urls cfg valid target_url word exts).head? = none
      ∨ (create_urls cfg valid target_url word exts).head?
          = some (build_url target_url word cfg.addslash cfg.queries none)) := by
  by_cases hv : valid target_url word = true
  · have he : create_urls cfg valid target_url word exts
        = build_url target_url word cfg.addslash cfg.queries none
            :: exts.map (fun e => build_url target_url word cfg.addslash cfg.queries (some e)) := by
      have hfm : ∀ (l : List String),
          List.filterMap
            (fun ext => some (build_url target_url word cfg.addslash cfg.queries (some ext))) l
          = List.map (fun e => build_url target_url word cfg.addslash cfg.queries (some e)) l := by
        intro l
        induction l with
        | nil => rfl
        | cons a t ih => simp [List.filterMap_cons, ih]
      simp [create_urls, format_url, hv, hfm]
    refine ⟨Or.inr ?_, fun _ => he, Or.inr ?_⟩
    · simp [he]
      omega
    · simp [he]
  · have hv' : valid target_url word = false := by
      cases h : valid target_url word
      · rfl
      · exact absurd h hv
    have he : create_urls cfg valid target_url word exts = [] := by
      simp [create_urls, format_url, hv']
    refine ⟨Or.inl ?_, fun h => absurd h hv, Or.inl ?_⟩
    · simp [he]
    · simp [he]

theorem create_urls_shape_witness :
    ((fun _ _ => true) "http://localhost" "turbo" = true)
  ∧ create_urls c6cfg (fun _ _ => true) "http://localhost" "turbo" ["js", "php"]
      = build_url "http://localhost" "turbo" c6cfg.addslash c6cfg.queries none
          :: ["js", "php"].map
              (fun e => build_url "http://localhost" "turbo" c6cfg.addslash c6cfg.queries (some e)) :=
  ⟨rfl,
    (create_urls_shape c6cfg (fun _ _ => true) "http://localhost" "turbo" ["js", "php"]).2.1 rfl⟩

/-- C7: in scan_url the coordinator awaits all producer workers, then drops
its recursion-channel sender and awaits the recursion handler (which joins
all child scans) strictly before dropping its report-channel sender and
awaiting the report sink; hence the recursion channel closes strictly before
the report channel. -/
theorem shutdown_order :
    eventIdx .awaitProducers < eventIdx .dropDirTx
  ∧ eventIdx .dropDirTx < eventIdx .awaitRecurser
  ∧ eventIdx .awaitRecurser < eventIdx .dropRptTx
  ∧ eventIdx .dropRptTx < eventIdx .awaitReporter
  ∧ eventIdx .dropDirTx < eventIdx .dropRptTx := by decide

/-- C8 counterexample: after an open failure the file sink does not keep
draining the report channel: with one message queued, nothing is consumed. -/
theorem file_reporter_counterexample :
    (spawn_file_reporter c8cfg false (fun _ => true) (fun _ => true) [c8resp]).consumed = []
  ∧ [c8resp] ≠ ([] : List Response) := by decide

theorem file_reporter_loop_consumed (cfg : Configuration)
    (write_ok flush_ok : Nat → Bool) :
    ∀ (msgs : List Response) (i : Nat),
      (file_reporter_loop cfg write_ok flush_ok i msgs).consumed = msgs := by
  intro msgs
  induction msgs with
  | nil => intro i; rfl
  | cons m rest ih =>
    intro i
    simp only [file_reporter_loop]
    split
    · split <;> simp [ih]
    · simp [ih]

/-- C8 (amended): upon a write or flush failure the file sink logs and keeps
consuming the report channel without propagating the error; upon an open
failure it logs and returns immediately, consuming nothing (it stops
draining, not merely persisting). -/
theorem file_reporter_error_handling
    (cfg : Configuration) (write_ok flush_ok : Nat → Bool) (msgs : List Response) :
    (spawn_file_reporter cfg true write_ok flush_ok msgs).consumed = msgs
  ∧ (spawn_file_reporter cfg false write_ok flush_ok msgs).consumed = [] :=
  ⟨file_reporter_loop_consumed cfg write_ok flush_ok msgs 0, rfl⟩
